import Mathlib

/-!
Shallow embedding of the Wigmore Hall ticket-availability checker
(`src/app/index.js`) and proofs about its state-transition, scheduling
and persistence logic.

Modelling conventions:
* Time is in integer milliseconds since the epoch (`nowMs : Int`), matching
  JavaScript `Date.getTime()` arithmetic.  A `scheduledDate` string
  `YYYY-MM-DD` parses (per `new Date(dateStr)` under the UTC runtime of the
  Docker container) to midnight UTC of that calendar day, so it is embedded
  as the day index `d : Int`, i.e. the instant `d * msPerDay`.
* A probe's network fetch and HTML parse are embedded as
  `Option (List String)`: `none` is any thrown error (network, timeout,
  parse), `some texts` is the list of trimmed texts of the booking elements
  found by the cheerio selector.
* Email delivery success is a parameter `deliveryOk : Bool`; the source's
  `sendEmailNotification` catches its own errors, so this flag reaches no
  control flow.
* Console logging is not modelled.
-/

/-- A monitored concert, as stored in `concerts.json` and mutated in place
by the checker.  `date` is the parsed `scheduledDate` day index (`none`
when absent), `lastChecked` the millisecond timestamp of the most recent
successful probe. -/
structure Concert where
  name : String
  url : String
  date : Option Int
  lastChecked : Option Int
  wasAvailable : Bool
deriving Repr, DecidableEq

/-- Milliseconds per day, the `1000 * 60 * 60 * 24` of `getCheckPriority`. -/
def msPerDay : Int := 1000 * 60 * 60 * 24

/-- `today.setHours(0, 0, 0, 0)` under the UTC runtime: the midnight
instant starting the calendar day that contains `nowMs`. -/
def startOfDay (nowMs : Int) : Int := msPerDay * (nowMs / msPerDay)

/-- Embeds `concertHasPassed(dateStr)`: no date is never past; otherwise
compare the concert's midnight instant against the start of today.
(`new Date(dateStr)` on a well-formed date does not throw, so the
source's catch branch is unreachable here.) -/
def concertHasPassed (nowMs : Int) (date : Option Int) : Bool :=
  match date with
  | none => false
  | some d => decide (d * msPerDay < startOfDay nowMs)

/-- Check priority, the three return values of `getCheckPriority`. -/
inductive Priority where
  | high
  | medium
  | normal
deriving Repr, DecidableEq

/-- Integer ceiling division for a positive divisor, the value
`Math.ceil(a / b)` computes on the exact integer quantities involved. -/
def ceilDiv (a b : Int) : Int := (a + b - 1) / b

/-- Embeds `getCheckPriority(dateStr)`:
`daysUntilConcert = Math.ceil((concertDate - today) / (1000*60*60*24))`
with `today = new Date()` the current instant, then thresholds at 3 and 7
days. -/
def getCheckPriority (nowMs : Int) (date : Option Int) : Priority :=
  match date with
  | none => Priority.normal
  | some d =>
    let daysUntilConcert := ceilDiv (d * msPerDay - nowMs) msPerDay
    if daysUntilConcert ≤ 3 then Priority.high
    else if daysUntilConcert ≤ 7 then Priority.medium
    else Priority.normal

/-- `startsWithChars pat cs`: the character list `cs` starts with `pat`. -/
def startsWithChars : List Char → List Char → Bool
  | [], _ => true
  | _ :: _, [] => false
  | p :: ps, c :: cs => p == c && startsWithChars ps cs

/-- `containsChars pat cs`: `pat` occurs contiguously somewhere in `cs` —
JavaScript `String.prototype.includes`. -/
def containsChars (pat : List Char) : List Char → Bool
  | [] => startsWithChars pat []
  | c :: cs => startsWithChars pat (c :: cs) || containsChars pat cs

/-- Embeds the cheerio scan of `checkTicketAvailability`: the booking
elements' texts are scanned for one whose text includes `"Book now"`; the
`each` loop breaks at the first hit, which is `List.any`. -/
def classifyAvailability (bookingTexts : List String) : Bool :=
  bookingTexts.any fun t => containsChars "Book now".toList t.toList

/-- Embeds `sendEmailNotification(concert)`: one delivery attempt whose
failure is caught and logged inside the function, so nothing is thrown to
the caller.  Returns how many messages were actually delivered. -/
def sendEmailNotification (deliveryOk : Bool) : Nat :=
  if deliveryOk then 1 else 0

/-- Outcome of one `checkTicketAvailability` call: the returned boolean,
the concert after in-place mutation, the number of notification send
attempts, and the number actually delivered. -/
structure CheckResult where
  returned : Bool
  concert : Concert
  sendAttempts : Nat
  delivered : Nat
deriving Repr, DecidableEq

/-- Embeds `checkTicketAvailability(concert)`.  `fetched` is the result of
the `axios.get` + cheerio parse (`none` = thrown error, caught by the
function, which logs and returns `false` with the concert untouched).
On success the concert's `lastChecked` is set, then the transition logic
runs: available ∧ not previously available → send notification and mark
available; not available → mark unavailable; otherwise unchanged. -/
def checkTicketAvailability (fetched : Option (List String))
    (deliveryOk : Bool) (nowMs : Int) (concert : Concert) : CheckResult :=
  match fetched with
  | none => ⟨false, concert, 0, 0⟩
  | some texts =>
    let ticketsAvailable := classifyAvailability texts
    let c1 : Concert := { concert with lastChecked := some nowMs }
    if ticketsAvailable && !c1.wasAvailable then
      ⟨ticketsAvailable, { c1 with wasAvailable := true }, 1,
        sendEmailNotification deliveryOk⟩
    else if !ticketsAvailable then
      ⟨ticketsAvailable, { c1 with wasAvailable := false }, 0, 0⟩
    else
      ⟨ticketsAvailable, c1, 0, 0⟩

/-- The comparator of `filterAndPrioritizeConcerts` as a Boolean ordering:
dated concerts ascending by date and before undated ones, undated equal
among themselves.  `concertLE a b` iff the source comparator returns a
non-positive number on `(a, b)`. -/
def concertLE (a b : Concert) : Bool :=
  match a.date, b.date with
  | none, none => true
  | none, some _ => false
  | some _, none => true
  | some x, some y => decide (x ≤ y)

/-- Embeds `filterAndPrioritizeConcerts(allConcerts)`: drop passed
concerts, then stable-sort the remainder by the date comparator
(JavaScript `Array.prototype.sort` is stable, as is `List.mergeSort`). -/
def filterAndPrioritizeConcerts (nowMs : Int) (allConcerts : List Concert) :
    List Concert :=
  let activeConcerts := allConcerts.filter fun c => !concertHasPassed nowMs c.date
  activeConcerts.mergeSort concertLE

/-- Embeds the `urgentConcerts` filter of the 15-minute high-priority job:
keep concerts that have a date, whose priority is `high`, and that have
not passed. -/
def urgentConcerts (nowMs : Int) (concerts : List Concert) : List Concert :=
  concerts.filter fun concert =>
    match concert.date with
    | none => false
    | some _ =>
      getCheckPriority nowMs concert.date == Priority.high &&
        !concertHasPassed nowMs concert.date

/-- A record of the persisted file before normalization: `lastChecked` and
`wasAvailable` may be absent, `date` may be absent. -/
structure RawConcert where
  name : String
  url : String
  date : Option Int
  lastChecked : Option Int
  wasAvailable : Option Bool
deriving Repr, DecidableEq

/-- State of the persisted `concerts.json` file as `loadConcertsConfig`
can encounter it: absent, unreadable/unparseable, or a valid record list. -/
inductive FileState where
  | missing
  | corrupt
  | valid (records : List RawConcert)

/-- The normalization `loadConcertsConfig` applies to each record:
`concert.lastChecked = concert.lastChecked || null`,
`concert.wasAvailable = concert.wasAvailable || false` (a malformed date
only warns and keeps the record). -/
def normalizeConcert (r : RawConcert) : Concert :=
  ⟨r.name, r.url, r.date, r.lastChecked, r.wasAvailable.getD false⟩

/-- The default concert list written when no config file exists; the date
`2025-05-01` is day 20209 since the epoch. -/
def defaultConcerts : List Concert :=
  [⟨"Example Concert (Replace with actual concert)",
    "https://wigmore-hall.org.uk/whats-on/example-concert",
    some 20209, none, false⟩]

/-- Embeds `loadConcertsConfig()`.  Returns the loaded list and whether a
default config file was persisted: a missing file is seeded with
`defaultConcerts` (and written); a read/parse error is caught, logged and
yields the empty list with nothing written; a valid file is normalized. -/
def loadConcertsConfig : FileState → List Concert × Bool
  | FileState.missing => (defaultConcerts, true)
  | FileState.corrupt => ([], false)
  | FileState.valid records => (records.map normalizeConcert, false)

/-- Outcome of one `checkAllConcerts` batch: the store contents after the
in-place mutations, how many times `saveConcertsConfig` ran, and how many
notification sends were attempted. -/
structure BatchOutcome where
  store : List Concert
  saves : Nat
  notifications : Nat
deriving Repr, DecidableEq

/-- Embeds `checkAllConcerts()` given the already-loaded store.  `env c`
is the fetch outcome a probe of `c` would see this batch, `deliveryOk c`
whether an email to `c`'s operator would be delivered.  The active
concerts are filtered and sorted; when none remain the function returns
early WITHOUT saving; otherwise each active concert is checked in place
(sequentially) and the full store — passed concerts included — is saved
exactly once at the end. -/
def checkAllConcerts (env : Concert → Option (List String))
    (deliveryOk : Concert → Bool) (nowMs : Int) (store : List Concert) :
    BatchOutcome :=
  let activeConcerts := filterAndPrioritizeConcerts nowMs store
  if activeConcerts.isEmpty then
    ⟨store, 0, 0⟩
  else
    let newStore := store.map fun c =>
      if concertHasPassed nowMs c.date then c
      else (checkTicketAvailability (env c) (deliveryOk c) nowMs c).concert
    let notifs :=
      (activeConcerts.map fun c =>
        (checkTicketAvailability (env c) (deliveryOk c) nowMs c).sendAttempts).sum
    ⟨newStore, 1, notifs⟩

/-! ## Claims about `checkTicketAvailability` -/

/-- C1: evaluating a successful probe follows the two-state machine on
`wasAvailable`: sold-out + available → one notification and
`wasAvailable := true`; available + available → no notification,
`wasAvailable` stays `true`; probe false → no notification,
`wasAvailable` becomes or stays `false`. -/
theorem checkTicket_transition_state_machine
    (texts : List String) (deliveryOk : Bool) (nowMs : Int) (c : Concert) :
    (classifyAvailability texts = true → c.wasAvailable = false →
      (checkTicketAvailability (some texts) deliveryOk nowMs c).sendAttempts = 1 ∧
      (checkTicketAvailability (some texts) deliveryOk nowMs c).concert.wasAvailable = true) ∧
    (classifyAvailability texts = true → c.wasAvailable = true →
      (checkTicketAvailability (some texts) deliveryOk nowMs c).sendAttempts = 0 ∧
      (checkTicketAvailability (some texts) deliveryOk nowMs c).concert.wasAvailable = true) ∧
    (classifyAvailability texts = false →
      (checkTicketAvailability (some texts) deliveryOk nowMs c).sendAttempts = 0 ∧
      (checkTicketAvailability (some texts) deliveryOk nowMs c).concert.wasAvailable = false) := by
  cases hb : classifyAvailability texts <;> cases hw : c.wasAvailable <;>
    simp [checkTicketAvailability, hb, hw]

/-- Witness for C1: a sold-out concert probed as available gets exactly one
notification and is marked available. -/
theorem checkTicket_transition_state_machine_witness :
    (checkTicketAvailability (some ["Book now"]) true 0
      ⟨"A", "u", none, none, false⟩).sendAttempts = 1 ∧
    (checkTicketAvailability (some ["Book now"]) true 0
      ⟨"A", "u", none, none, false⟩).concert.wasAvailable = true :=
  (checkTicket_transition_state_machine ["Book now"] true 0
    ⟨"A", "u", none, none, false⟩).1 (by decide) rfl

/-- C2 counterexample: a failed probe on a concert with
`wasAvailable = true` leaves `wasAvailable = true` — the claim's
"becomes or remains false, including after a failed probe" is wrong. -/
theorem failedProbe_keeps_wasAvailable_true :
    (checkTicketAvailability none true 0
      ⟨"A", "u", none, none, true⟩).concert.wasAvailable = true := rfl

/-- C2 (amended): a probe that succeeds and returns false makes
`wasAvailable` false with no notification; a probe that fails sends no
notification and leaves `wasAvailable` unchanged (so it stays true if it
was true). -/
theorem probeFalse_clears_failedProbe_preserves
    (texts : List String) (deliveryOk : Bool) (nowMs : Int) (c : Concert) :
    (classifyAvailability texts = false →
      (checkTicketAvailability (some texts) deliveryOk nowMs c).concert.wasAvailable = false ∧
      (checkTicketAvailability (some texts) deliveryOk nowMs c).sendAttempts = 0) ∧
    ((checkTicketAvailability none deliveryOk nowMs c).concert.wasAvailable = c.wasAvailable ∧
      (checkTicketAvailability none deliveryOk nowMs c).sendAttempts = 0) := by
  cases hb : classifyAvailability texts <;> cases hw : c.wasAvailable <;>
    simp [checkTicketAvailability, hb, hw]

/-- Witness for C2 (amended): a sold-out result clears `wasAvailable`
without a notification. -/
theorem probeFalse_clears_failedProbe_preserves_witness :
    (checkTicketAvailability (some ["Sold out"]) true 0
      ⟨"A", "u", none, none, true⟩).concert.wasAvailable = false ∧
    (checkTicketAvailability (some ["Sold out"]) true 0
      ⟨"A", "u", none, none, true⟩).sendAttempts = 0 :=
  (probeFalse_clears_failedProbe_preserves ["Sold out"] true 0
    ⟨"A", "u", none, none, true⟩).1 (by decide)

/-- C3: a probe failure is caught inside `checkTicketAvailability`: the
call returns `false`, attempts no notification, and leaves the concert —
`wasAvailable` included — exactly as it was. -/
theorem checkTicket_failure_caught_returns_false
    (deliveryOk : Bool) (nowMs : Int) (c : Concert) :
    checkTicketAvailability none deliveryOk nowMs c = ⟨false, c, 0, 0⟩ := rfl

/-- C4 counterexample: a failed probe does not update `lastChecked` — it
stays `none` instead of becoming `some 5`, so the claim's "including the
case where the probe fails" is wrong. -/
theorem failedProbe_lastChecked_not_updated :
    (checkTicketAvailability none true 5
      ⟨"A", "u", none, none, false⟩).concert.lastChecked = none ∧
    (none : Option Int) ≠ some 5 := by decide

/-- C4 (amended): `lastChecked` is set to the probe time on every probe
whose fetch and parse succeed, regardless of transition; a failed probe
leaves it unchanged. -/
theorem lastChecked_updated_iff_probe_succeeded
    (texts : List String) (deliveryOk : Bool) (nowMs : Int) (c : Concert) :
    (checkTicketAvailability (some texts) deliveryOk nowMs c).concert.lastChecked = some nowMs ∧
    (checkTicketAvailability none deliveryOk nowMs c).concert.lastChecked = c.lastChecked := by
  cases hb : classifyAvailability texts <;> cases hw : c.wasAvailable <;>
    simp [checkTicketAvailability, hb, hw]

/-- C9: on a sold-out→available transition the notification is attempted
exactly once and delivery failure (`deliveryOk = false`, delivered 0) does
not roll the transition back: `wasAvailable` still becomes `true`, and the
resulting concert does not depend on the delivery outcome at all. -/
theorem notification_failure_does_not_roll_back
    (texts : List String) (nowMs : Int) (c : Concert)
    (havail : classifyAvailability texts = true) (hwas : c.wasAvailable = false) :
    (checkTicketAvailability (some texts) false nowMs c).concert.wasAvailable = true ∧
    (checkTicketAvailability (some texts) false nowMs c).sendAttempts = 1 ∧
    (checkTicketAvailability (some texts) false nowMs c).delivered = 0 ∧
    ∀ d1 d2 : Bool, (checkTicketAvailability (some texts) d1 nowMs c).concert =
      (checkTicketAvailability (some texts) d2 nowMs c).concert := by
  refine ⟨?_, ?_, ?_, ?_⟩ <;>
    simp [checkTicketAvailability, havail, hwas, sendEmailNotification]

/-- Witness for C9: the transition survives a failed delivery. -/
theorem notification_failure_does_not_roll_back_witness :
    (checkTicketAvailability (some ["Book now"]) false 0
      ⟨"A", "u", none, none, false⟩).concert.wasAvailable = true ∧
    (checkTicketAvailability (some ["Book now"]) false 0
      ⟨"A", "u", none, none, false⟩).delivered = 0 :=
  ⟨(notification_failure_does_not_roll_back ["Book now"] 0
      ⟨"A", "u", none, none, false⟩ (by decide) rfl).1,
   (notification_failure_does_not_roll_back ["Book now"] 0
      ⟨"A", "u", none, none, false⟩ (by decide) rfl).2.2.1⟩

/-- C10: whenever fetch and parse succeed, the boolean
`checkTicketAvailability` returns equals the concert's `wasAvailable`
immediately after the check. -/
theorem successfulProbe_returned_eq_wasAvailable
    (texts : List String) (deliveryOk : Bool) (nowMs : Int) (c : Concert) :
    (checkTicketAvailability (some texts) deliveryOk nowMs c).returned =
      (checkTicketAvailability (some texts) deliveryOk nowMs c).concert.wasAvailable := by
  cases hb : classifyAvailability texts <;> cases hw : c.wasAvailable <;>
    simp [checkTicketAvailability, hb, hw]

/-! ## Claims about scheduling and batch selection -/

/-- Helper: a dated concert has passed exactly when its day index is
strictly below the current calendar day `nowMs / msPerDay`. -/
theorem concertHasPassed_some (nowMs d : Int) :
    concertHasPassed nowMs (some d) = decide (d < nowMs / msPerDay) := by
  simp only [concertHasPassed, startOfDay, msPerDay]
  rw [decide_eq_decide]
  omega

/-- Helper: the priority is `high` exactly when the concert's day index is
at most three days after the current calendar day, because
`Math.ceil((d·D − now)/D) = d − now/D` for any time of day. -/
theorem getCheckPriority_high_iff (nowMs d : Int) :
    getCheckPriority nowMs (some d) = Priority.high ↔ d ≤ nowMs / msPerDay + 3 := by
  simp only [getCheckPriority, ceilDiv, msPerDay]
  split_ifs with h1 h2 <;> simp_all <;> omega

/-- C5: the "check all active items" batch keeps exactly the non-past
items: an item of the store is in the filtered-and-sorted batch iff it has
no date or its date is today or later (calendar comparison). -/
theorem active_batch_membership (nowMs : Int) (cs : List Concert) (c : Concert)
    (hmem : c ∈ cs) :
    c ∈ filterAndPrioritizeConcerts nowMs cs ↔
      (c.date = none ∨ ∃ d, c.date = some d ∧ nowMs / msPerDay ≤ d) := by
  unfold filterAndPrioritizeConcerts
  rw [List.mem_mergeSort, List.mem_filter]
  cases hd : c.date with
  | none => simp [concertHasPassed, hd, hmem]
  | some d => simp [hd, hmem, concertHasPassed_some, Int.not_lt]

/-- Witness for C5: with today = day 1, an item dated day 1 (today) is in
the batch. -/
theorem active_batch_membership_witness :
    (⟨"T", "u", some 1, none, false⟩ : Concert) ∈
      filterAndPrioritizeConcerts msPerDay [⟨"T", "u", some 1, none, false⟩] :=
  (active_batch_membership msPerDay [⟨"T", "u", some 1, none, false⟩]
      ⟨"T", "u", some 1, none, false⟩ (by simp)).mpr
    (Or.inr ⟨1, rfl, by decide⟩)

/-- C6: the 15-minute priority batch selects exactly the items with a
date whose day index lies between today and today + 3 (so exactly 3 days
out is included, 4 days out and undated items are excluded). -/
theorem urgent_batch_membership (nowMs : Int) (cs : List Concert) (c : Concert)
    (hmem : c ∈ cs) :
    c ∈ urgentConcerts nowMs cs ↔
      ∃ d, c.date = some d ∧ nowMs / msPerDay ≤ d ∧ d ≤ nowMs / msPerDay + 3 := by
  unfold urgentConcerts
  rw [List.mem_filter]
  cases hd : c.date with
  | none => simp [hd, hmem]
  | some d =>
    simp [hd, hmem, concertHasPassed_some, getCheckPriority_high_iff, Int.not_lt]
    omega

/-- Witness for C6: with today = day 0, an item dated day 3 (exactly three
days out) is in the priority batch. -/
theorem urgent_batch_membership_witness :
    (⟨"T", "u", some 3, none, false⟩ : Concert) ∈
      urgentConcerts 0 [⟨"T", "u", some 3, none, false⟩] :=
  (urgent_batch_membership 0 [⟨"T", "u", some 3, none, false⟩]
      ⟨"T", "u", some 3, none, false⟩ (by simp)).mpr
    ⟨3, rfl, by decide, by decide⟩

/-! ## Claims about batch persistence and config loading -/

/-- C7 counterexample: with a store holding only a passed concert
(day 0, checked on day 1) the filtered active set is empty,
`checkAllConcerts` returns early, and the store is saved zero times — not
once as the claim states for empty runs. -/
theorem empty_active_batch_does_not_save :
    (checkAllConcerts (fun _ => none) (fun _ => true) msPerDay
      [⟨"A", "u", some 0, none, false⟩]).saves = 0 := by
  simp [checkAllConcerts, filterAndPrioritizeConcerts, concertHasPassed,
    startOfDay, msPerDay]

/-- C7 (amended): a "check all active items" run persists the store
exactly once after the batch when the filtered active set is nonempty,
and zero times when it is empty (the early return skips the save). -/
theorem batch_saves_once_unless_empty
    (env : Concert → Option (List String)) (deliveryOk : Concert → Bool)
    (nowMs : Int) (store : List Concert) :
    (filterAndPrioritizeConcerts nowMs store = [] →
      (checkAllConcerts env deliveryOk nowMs store).saves = 0) ∧
    (filterAndPrioritizeConcerts nowMs store ≠ [] →
      (checkAllConcerts env deliveryOk nowMs store).saves = 1) := by
  unfold checkAllConcerts
  constructor
  · intro h
    simp [h]
  · intro h
    simp [List.isEmpty_iff, h]

/-- Witness for C7 (amended): an empty store saves zero times, a store
with one undated concert saves once. -/
theorem batch_saves_once_unless_empty_witness :
    (checkAllConcerts (fun _ => none) (fun _ => true) 0 []).saves = 0 ∧
    (checkAllConcerts (fun _ => none) (fun _ => true) 0
      [⟨"A", "u", none, none, false⟩]).saves = 1 :=
  ⟨(batch_saves_once_unless_empty (fun _ => none) (fun _ => true) 0 []).1
      (by simp [filterAndPrioritizeConcerts]),
   (batch_saves_once_unless_empty (fun _ => none) (fun _ => true) 0
      [⟨"A", "u", none, none, false⟩]).2
      (by simp [filterAndPrioritizeConcerts, concertHasPassed])⟩

/-- C8 counterexample: on a corrupt/unreadable config file,
`loadConcertsConfig` returns the empty list and persists nothing — no
default placeholder is written, contrary to the claim's second half. -/
theorem corrupt_store_persists_no_default :
    loadConcertsConfig FileState.corrupt = ([], false) := rfl

/-- C8 (amended): loading never raises and fails open: a corrupt or
unreadable file yields the empty list with nothing persisted, while only
a missing file is seeded with the single default placeholder concert,
which is persisted. -/
theorem load_fails_open_default_only_when_missing :
    loadConcertsConfig FileState.corrupt = ([], false) ∧
    loadConcertsConfig FileState.missing = (defaultConcerts, true) ∧
    defaultConcerts.length = 1 :=
  ⟨rfl, rfl, rfl⟩
